import Mathlib

/-!
Verification development for the matrix-googlechat bridge portal engine.

The Python source (`mautrix_googlechat/portal.py`, the `v11_add_space_mxid_to_user`
migration step, and the hangouts db initializer) is shallowly embedded below.
Asynchronous calls to external systems (the remote Google Chat client, the Matrix
homeserver, the `_bridge_own_message_pm` membership check, random id generation)
are parameterized as explicit environment records: each handler becomes a pure
function from the portal's mutable state, the persistent store contents and the
environment's answers to the next state plus a trace of observable effects, in
the exact order the source performs them.
-/

namespace GCBridge

/-- A Message row of the persistent store (`db.Message`), with the fields used by
`portal.py`.  Timestamps are in milliseconds. -/
structure DBMessage where
  mxid : String
  mx_room : String
  gcid : String
  gc_chat : String
  gc_receiver : String
  gc_parent_id : Option String
  index : Nat
  timestamp : Nat
  msgtype : String
  gc_sender : String
deriving Repr, DecidableEq

/-- A Reaction row of the persistent store (`db.Reaction`). -/
structure DBReaction where
  mxid : String
  mx_room : String
  emoji : String
  gc_sender : String
  gc_msgid : String
  gc_chat : String
  gc_receiver : String
  timestamp : Nat
deriving Repr, DecidableEq

/-- The persistent store contents the portal handlers read and write. -/
structure DB where
  messages : List DBMessage
  reactions : List DBReaction
deriving Repr, DecidableEq

/-- `DBMessage.get_by_mxid(event_id, room)`: first row with both ids matching. -/
def getMessageByMxid (msgs : List DBMessage) (eventId room : String) : Option DBMessage :=
  msgs.find? (fun m => m.mxid == eventId && m.mx_room == room)

/-- `DBMessage.get_by_gcid(gcid, chat, receiver, index)`. -/
def getMessageByGcid (msgs : List DBMessage) (gcid chat receiver : String) (index : Nat) :
    Option DBMessage :=
  msgs.find? (fun m =>
    m.gcid == gcid && m.gc_chat == chat && m.gc_receiver == receiver && m.index == index)

/-- `DBReaction.get_by_gcid(emoji, sender, msgid, chat, receiver)`. -/
def getReactionByGcid (rs : List DBReaction) (emoji sender msgid chat receiver : String) :
    Option DBReaction :=
  rs.find? (fun r =>
    r.emoji == emoji && r.gc_sender == sender && r.gc_msgid == msgid &&
    r.gc_chat == chat && r.gc_receiver == receiver)

/-- The mutable per-portal state of `Portal`: the persistent row fields plus the
in-memory dedup bookkeeping (`_dedup` deque newest-first with maxlen 100,
`_local_dedup` set, `_edit_dedup` map). -/
structure Portal where
  gcid : String
  gc_receiver : String
  other_user_id : Option String := none
  mxid : Option String := none
  encrypted : Bool := false
  is_threaded : Bool := false
  dedup : List String := []
  localDedup : List String := []
  editDedup : List (String × Nat) := []
deriving Repr, DecidableEq

/-- `self._dedup.appendleft(id)` on a `deque(maxlen=100)`: the new id goes to the
front and anything beyond the 100 newest entries is discarded. -/
def dedupAppendLeft (dedup : List String) (id : String) : List String :=
  (id :: dedup).take 100

/-- Observable side effects of a handler, in source order. -/
inductive Effect where
  | addLocalDedup (id : String)
  | removeLocalDedup (id : String)
  | remoteSendMessage (localId : String)
  | remoteReact (chat msgid emoji : String)
  | insertMessageRow (m : DBMessage)
  | insertReactionRow (r : DBReaction)
  | matrixEvent (eventId : String)
  | checkpointSuccess (eventId : String)
  | checkpointDropped (eventId reason : String)
  | checkpointFail (eventId : String)
  | deliveryReceipt (eventId : String)
  | deleteMessagesByRoom (room : String)
  | deleteReactionsByRoom (room : String)
  | deletePortalRow (gcid receiver : String)
deriving Repr, DecidableEq

/-- Result of running one handler: new portal state, new store contents, effect
trace. -/
structure HandleResult where
  portal : Portal
  db : DB
  trace : List Effect
deriving Repr, DecidableEq

/-- The fields of an inbound `googlechat.Message` event read by
`handle_googlechat_message`.  Absent proto string fields are `""`. -/
structure GCMessage where
  sender_id : String
  msg_id : String
  local_id : String
  create_time : Nat
  text_body : String
  parent_topic_id : String
deriving Repr, DecidableEq

/-- Environment answers for one run of `handle_googlechat_message`: the room id
`create_matrix_room` yields when no room exists yet (`none` = creation failed),
the verdict of `_bridge_own_message_pm`, the Matrix event id minted for the text
body, and the `(event id, msgtype)` pairs yielded by
`process_googlechat_attachments`. -/
structure GCMessageEnv where
  createRoomResult : Option String
  bridgeOwnOk : Bool
  textEventId : String
  attachmentEvents : List (String × String)
deriving Repr, DecidableEq

/-- Embedding of `Portal.handle_googlechat_message` (portal.py lines 813-867).
Dedup first (provisional-id set, then the bounded history, which the new id is
appended to); then room creation on demand, the own-message gate, event fan-out
(text body plus attachments), Message-row inserts sharing `gcid` with distinct
`index`, and a delivery receipt for the last produced event.  Reply-relation
content (`get_last_in_thread`) only affects event content, which is not modeled.
This helper is the part of the handler after the Matrix room is resolved. -/
def hgmAfterRoom (P2 : Portal) (room : String) (db : DB) (evt : GCMessage)
    (env : GCMessageEnv) : HandleResult :=
  if !env.bridgeOwnOk then ⟨P2, db, []⟩
  else
    let timestamp := evt.create_time / 1000
    let parent : Option String :=
      if evt.parent_topic_id ≠ "" then some evt.parent_topic_id else none
    let eventPairs : List (String × String) :=
      (if evt.text_body ≠ "" then [(env.textEventId, "m.text")] else [])
      ++ env.attachmentEvents
    if eventPairs.isEmpty then ⟨P2, db, []⟩
    else
      let newRows : List DBMessage := eventPairs.enum.map (fun p =>
        { mxid := p.2.1, mx_room := room, gcid := evt.msg_id, gc_chat := P2.gcid,
          gc_receiver := P2.gc_receiver, gc_parent_id := parent, index := p.1,
          timestamp := timestamp, msgtype := p.2.2, gc_sender := evt.sender_id })
      ⟨P2, { db with messages := db.messages ++ newRows },
        eventPairs.map (fun p => Effect.matrixEvent p.1)
          ++ newRows.map Effect.insertMessageRow
          ++ [Effect.deliveryReceipt (eventPairs.getLastD ("", "")).1]⟩

/-- Embedding of `Portal.handle_googlechat_message` proper: dedup first under
the sender's optional lock (provisional-id set, then the bounded history, which
the fresh id is appended to), then room creation on demand (aborting when no
room id results), then `hgmAfterRoom`. -/
def handle_googlechat_message (P : Portal) (db : DB) (evt : GCMessage)
    (env : GCMessageEnv) : HandleResult :=
  if evt.local_id ∈ P.localDedup then ⟨P, db, []⟩
  else if evt.msg_id ∈ P.dedup then ⟨P, db, []⟩
  else
    let P1 : Portal := { P with dedup := dedupAppendLeft P.dedup evt.msg_id }
    match P1.mxid with
    | some room => hgmAfterRoom P1 room db evt env
    | none =>
      match env.createRoomResult with
      | some room => hgmAfterRoom { P1 with mxid := some room } room db evt env
      | none => ⟨P1, db, []⟩

/-- The fields of an outbound Matrix `MessageEventContent` read by
`handle_matrix_message`. -/
structure MatrixMessage where
  msgtype : String
  edit_target : Option String
  reply_to_id : Option String
deriving Repr, DecidableEq

/-- The `(gcid, timestamp)` pair extracted from a remote send response by
`_get_send_response` (timestamp in microseconds). -/
structure SendResponse where
  gcid : String
  timestamp : Nat
deriving Repr, DecidableEq

/-- Outcome of the remote `send_message` call made inside the try block of
`handle_matrix_message` (text and media paths both end in `send_message`). -/
inductive SendOutcome where
  | ok (resp : SendResponse)
  | error
deriving Repr, DecidableEq

/-- Environment for one run of `handle_matrix_message`: the
`random.randint(0, 0xffffffffffffffff)` draw used to build the provisional local
id, and the remote call's outcome. -/
structure MatrixMessageEnv where
  localRand : Nat
  outcome : SendOutcome
deriving Repr, DecidableEq

/-- `MessageType.is_media` of the external mautrix library: the media message
types dispatched to `_handle_matrix_media`. -/
def isMediaMsgtype (t : String) : Bool :=
  t == "m.image" || t == "m.sticker" || t == "m.video" || t == "m.audio" || t == "m.file"

/-- The provisional local id format of `handle_matrix_message`. -/
def mkLocalId (rand : Nat) : String :=
  "mautrix-googlechat%" ++ toString rand

/-- Embedding of `Portal.handle_matrix_message` (portal.py lines 577-609).
Edits are dispatched to `handle_matrix_edit` (not modeled: empty result).
Otherwise: reply/thread resolution, provisional id added to `_local_dedup`,
then under the send lock the remote send; on success the response id is
recorded in `_dedup`, the provisional id is removed, and a Message row is
inserted; on failure (including unsupported msgtype) only a failure checkpoint
is recorded — the source's except-branch does not remove the provisional id. -/
def handle_matrix_message (P : Portal) (db : DB) (senderGcid : String)
    (message : MatrixMessage) (event_id : String) (env : MatrixMessageEnv) : HandleResult :=
  match message.edit_target with
  | some _ => ⟨P, db, []⟩
  | none =>
    let reply_to : Option DBMessage :=
      match message.reply_to_id with
      | some rid => getMessageByMxid db.messages rid (P.mxid.getD "")
      | none => none
    let thread_id : Option String :=
      match reply_to with
      | some r => if P.is_threaded then some (r.gc_parent_id.getD r.gcid) else none
      | none => none
    let local_id := mkLocalId env.localRand
    let P1 : Portal := { P with localDedup := local_id :: P.localDedup }
    if message.msgtype == "m.text" || message.msgtype == "m.notice"
        || isMediaMsgtype message.msgtype then
      match env.outcome with
      | SendOutcome.error =>
        ⟨P1, db, [Effect.addLocalDedup local_id, Effect.remoteSendMessage local_id,
                  Effect.checkpointFail event_id]⟩
      | SendOutcome.ok resp =>
        let P2 : Portal := { P1 with dedup := dedupAppendLeft P1.dedup resp.gcid,
                                     localDedup := P1.localDedup.erase local_id }
        let row : DBMessage :=
          { mxid := event_id, mx_room := P.mxid.getD "", gcid := resp.gcid,
            gc_chat := P.gcid, gc_receiver := P.gc_receiver, gc_parent_id := thread_id,
            index := 0, timestamp := resp.timestamp / 1000, msgtype := message.msgtype,
            gc_sender := senderGcid }
        ⟨P2, { db with messages := db.messages ++ [row] },
         [Effect.addLocalDedup local_id, Effect.remoteSendMessage local_id,
          Effect.checkpointSuccess event_id, Effect.removeLocalDedup local_id,
          Effect.insertMessageRow row]⟩
    else
      ⟨P1, db, [Effect.addLocalDedup local_id, Effect.checkpointFail event_id]⟩

/-- The fields of an inbound `googlechat.Message` read by
`handle_googlechat_edit`.  Absent proto fields are `""`/`0`. -/
structure GCEditEvent where
  sender_id : String
  msg_id : String
  last_edit_time : Nat
  last_update_time : Nat
  text_body : String
deriving Repr, DecidableEq

/-- Environment for one run of `handle_googlechat_edit`: the
`_bridge_own_message_pm` verdict and the Matrix event id minted for the edit. -/
structure GCEditEnv where
  bridgeOwnOk : Bool
  sentEventId : String
deriving Repr, DecidableEq

/-- `self._edit_dedup[msg_id]` lookup. -/
def lookupEdit (m : List (String × Nat)) (k : String) : Option Nat :=
  (m.find? (fun p => p.1 == k)).map (fun p => p.2)

/-- `self._edit_dedup[msg_id] = ts` dict assignment. -/
def insertEdit (m : List (String × Nat)) (k : String) (v : Nat) : List (String × Nat) :=
  if m.any (fun p => p.1 == k) then
    m.map (fun p => if p.1 == k then (k, v) else p)
  else m ++ [(k, v)]

/-- The effective edit timestamp: `evt.last_edit_time or evt.last_update_time`
(Python falsy-or on proto ints). -/
def editTs (evt : GCEditEvent) : Nat :=
  if evt.last_edit_time ≠ 0 then evt.last_edit_time else evt.last_update_time

/-- Embedding of `Portal.handle_googlechat_edit` (portal.py lines 781-811).
Nothing happens without a room; the own-message gate applies; under the
sender's optional lock an edit whose timestamp is ≤ the recorded last edit
timestamp for that message id is dropped, otherwise the map is updated; then
the target row (index 0) must exist, be of type `m.text`, and the edit must
carry a text body; only then is a Matrix edit event sent followed by a
delivery receipt. -/
def handle_googlechat_edit (P : Portal) (db : DB) (evt : GCEditEvent)
    (env : GCEditEnv) : HandleResult :=
  match P.mxid with
  | none => ⟨P, db, []⟩
  | some _room =>
    if !env.bridgeOwnOk then ⟨P, db, []⟩
    else
      let edit_ts := editTs evt
      let dropped : Bool :=
        match lookupEdit P.editDedup evt.msg_id with
        | some prev => prev ≥ edit_ts
        | none => false
      if dropped then ⟨P, db, []⟩
      else
        let P1 : Portal := { P with editDedup := insertEdit P.editDedup evt.msg_id edit_ts }
        match getMessageByGcid db.messages evt.msg_id P.gcid P.gc_receiver 0 with
        | none => ⟨P1, db, []⟩
        | some target =>
          if target.msgtype ≠ "m.text" ∨ evt.text_body = "" then ⟨P1, db, []⟩
          else
            ⟨P1, db, [Effect.matrixEvent env.sentEventId,
                      Effect.deliveryReceipt env.sentEventId]⟩

/-- Outcome of the remote `client.react` call in `handle_matrix_reaction`. -/
inductive ReactOutcome where
  | ok
  | error
deriving Repr, DecidableEq

/-- The emoji variation selector U+FE0F. -/
def variationSelector : Char := '\uFE0F'

/-- Embedding of `reaction.rstrip` with the variation selector: drop every
trailing U+FE0F. -/
def rstripVS (s : String) : String :=
  String.mk ((s.data.reverse.dropWhile (fun c => c == variationSelector)).reverse)

/-- Embedding of `Portal.handle_matrix_reaction` (portal.py lines 493-518).
The emoji is normalized, the target Message row must exist, an identical
existing Reaction row drops the event, otherwise a Reaction row (timestamp =
the locally synthesized `fake_ts`) is inserted and only then is the remote
react call made; its failure is recorded as a checkpoint without undoing the
insert. -/
def handle_matrix_reaction (P : Portal) (db : DB) (senderGcid : String)
    (reaction_id target_id emoji : String) (fakeTs : Nat) (outcome : ReactOutcome) :
    HandleResult :=
  let reaction := rstripVS emoji
  match getMessageByMxid db.messages target_id (P.mxid.getD "") with
  | none => ⟨P, db, [Effect.checkpointDropped reaction_id "reaction target not found"]⟩
  | some target =>
    match getReactionByGcid db.reactions reaction senderGcid target.gcid target.gc_chat
        target.gc_receiver with
    | some _ => ⟨P, db, [Effect.checkpointDropped reaction_id "duplicate reaction"]⟩
    | none =>
      let row : DBReaction :=
        { mxid := reaction_id, mx_room := P.mxid.getD "", emoji := reaction,
          gc_sender := senderGcid, gc_msgid := target.gcid, gc_chat := target.gc_chat,
          gc_receiver := target.gc_receiver, timestamp := fakeTs }
      let db1 : DB := { db with reactions := db.reactions ++ [row] }
      match outcome with
      | ReactOutcome.error =>
        ⟨P, db1, [Effect.insertReactionRow row,
                  Effect.remoteReact target.gc_chat target.gcid reaction,
                  Effect.checkpointFail reaction_id]⟩
      | ReactOutcome.ok =>
        ⟨P, db1, [Effect.insertReactionRow row,
                  Effect.remoteReact target.gc_chat target.gcid reaction,
                  Effect.checkpointSuccess reaction_id]⟩

/-- Errors of `_download_external_attachment`: `resp.raise_for_status()` and
`FileTooLargeError`. -/
inductive DownloadError where
  | httpStatus (code : Nat)
  | fileTooLarge
deriving Repr, DecidableEq

/-- The HTTP response observed by `_download_external_attachment`: status code,
the optional `Content-Length` and `Content-Type` headers, and the body stream
as a byte list. -/
structure HttpResponse where
  status : Nat
  contentLength : Option Nat
  contentType : Option String
  body : List Nat
deriving Repr, DecidableEq

/-- The block-read loop of `_download_external_attachment`: each
`resp.content.read(max_size)` returns at most `max_size` bytes of the remaining
stream, the cap is decremented by the block length, and the loop stops on an
empty block (stream exhausted, or cap reduced to zero). -/
def readBlocks (maxSize : Nat) (stream : List Nat) : List Nat :=
  let block := stream.take maxSize
  if block.isEmpty then []
  else block ++ readBlocks (maxSize - block.length) (stream.drop maxSize)
termination_by stream.length
decreasing_by
  rename_i h
  rw [List.isEmpty_eq_true, List.take_eq_nil_iff] at h
  push_neg at h
  have : 0 < stream.length := List.length_pos.mpr h.2
  simp only [List.length_drop]
  omega

/-- Embedding of `Portal._download_external_attachment` (portal.py lines
869-885).  After `raise_for_status`, a declared `Content-Length` (missing
header parsed as 0) strictly above a positive cap raises `FileTooLargeError`
before any body read; otherwise the body is read block-by-block bounded by the
cap.  The MIME sniffing fallback (`magic.from_buffer`) is the external
parameter `sniff`; the filename is the last path segment of the URL, passed in
as `urlPathLast`. -/
def download_external_attachment (urlPathLast : String) (resp : HttpResponse)
    (maxSize : Nat) (sniff : List Nat → String) :
    Except DownloadError (List Nat × String × String) :=
  if 400 ≤ resp.status then Except.error (DownloadError.httpStatus resp.status)
  else
    let declared := resp.contentLength.getD 0
    if 0 < maxSize ∧ maxSize < declared then Except.error DownloadError.fileTooLarge
    else
      let data := readBlocks maxSize resp.body
      let mime := match resp.contentType with
        | some m => if m = "" then sniff data else m
        | none => sniff data
      Except.ok (data, mime, urlPathLast)

/-- Dict assignment `power_levels.users[k] = v` of `_create_matrix_room`:
overwrite an existing entry in place, else append. -/
def setPowerUser (users : List (String × Nat)) (k : String) (v : Nat) :
    List (String × Nat) :=
  if users.any (fun p => p.1 == k) then
    users.map (fun p => if p.1 == k then (k, v) else p)
  else users ++ [(k, v)]

/-- Dict lookup in the power-level users map. -/
def lookupPowerUser (users : List (String × Nat)) (k : String) : Option Nat :=
  (users.find? (fun p => p.1 == k)).map (fun p => p.2)

/-- The power-level `users` map computed by `_create_matrix_room` (portal.py
lines 403-407): the inviting user gets 50 only in a direct chat, then the
portal's main acting identity gets 100. -/
def powerLevelUsers (isDirect : Bool) (sourceMxid mainIntentMxid : String) :
    List (String × Nat) :=
  let users : List (String × Nat) := []
  let users := if isDirect then setPowerUser users sourceMxid 50 else users
  setPowerUser users mainIntentMxid 100

/-- The whole bridge-visible state touched by `Portal.delete`: Message and
Reaction rows, the portal store rows (by composite key), and the two in-memory
index caches. -/
structure BridgeState where
  messages : List DBMessage
  reactions : List DBReaction
  portalRows : List (String × String)
  byGcid : List (String × String)
  byMxid : List String
deriving Repr, DecidableEq

/-- Embedding of `Portal.delete` (portal.py lines 135-141): when a Matrix room
exists, delete every Message and Reaction row of that room; pop the portal
from `by_gcid` and (when the room exists) from `by_mxid`; finally delete the
portal's own store row (`super().delete()`). -/
def portalDelete (P : Portal) (st : BridgeState) : BridgeState × List Effect :=
  let step1 : BridgeState × List Effect :=
    match P.mxid with
    | some room =>
      ({ st with messages := st.messages.filter (fun m => m.mx_room != room),
                 reactions := st.reactions.filter (fun r => r.mx_room != room) },
       [Effect.deleteMessagesByRoom room, Effect.deleteReactionsByRoom room])
    | none => (st, [])
  let st1 := step1.1
  let st2 : BridgeState :=
    { st1 with byGcid := st1.byGcid.filter (fun k => k != (P.gcid, P.gc_receiver)) }
  let st3 : BridgeState :=
    match P.mxid with
    | some room => { st2 with byMxid := st2.byMxid.filter (fun r => r != room) }
    | none => st2
  let st4 : BridgeState :=
    { st3 with portalRows := st3.portalRows.filter (fun k => k != (P.gcid, P.gc_receiver)) }
  (st4, step1.2 ++ [Effect.deletePortalRow P.gcid P.gc_receiver])

/-- A DDL action of the schema-migration layer.  `nullable = true` records the
absence of a NOT NULL constraint. -/
inductive SqlAction where
  | addColumn (table column coltype : String) (nullable : Bool)
deriving Repr, DecidableEq

/-- The `create_table_queries` list of the registered migration step
`upgrade_v6` in `v11_add_space_mxid_to_user.py`: its single statement is
`ALTER TABLE "user" ADD COLUMN space_mxid TEXT`, i.e. add a nullable TEXT
column `space_mxid` to the `user` table. -/
def createTableQueries : List SqlAction :=
  [SqlAction.addColumn "user" "space_mxid" "TEXT" true]

/-- Sequential execution of the statement list: `for query in
create_table_queries: await conn.execute(query)` — no try/except, so the first
error propagates and later statements are not run. -/
def execAll {E : Type} (execute : SqlAction → Except E Unit) :
    List SqlAction → Except E Unit
  | [] => Except.ok ()
  | q :: rest =>
    match execute q with
    | Except.ok _ => execAll execute rest
    | Except.error e => Except.error e

/-- Embedding of the migration step `upgrade_v6`: run every statement of
`createTableQueries` against the connection, propagating errors uncaught. -/
def upgrade_v6 {E : Type} (execute : SqlAction → Except E Unit) : Except E Unit :=
  execAll execute createTableQueries

/-! ## Helper lemmas -/

/-- A freshly appended id is in the bounded dedup history. -/
theorem mem_dedupAppendLeft (d : List String) (id : String) :
    id ∈ dedupAppendLeft d id := by
  unfold dedupAppendLeft
  rw [List.take_succ_cons]
  exact List.mem_cons_self id _

/-- An inbound message whose remote id is already in the bounded history (and
whose local id is not in the provisional set) is dropped with no state change
and no effects. -/
theorem hgm_drop_by_history (P : Portal) (db : DB) (evt : GCMessage) (env : GCMessageEnv)
    (hlocal : evt.local_id ∉ P.localDedup) (hdup : evt.msg_id ∈ P.dedup) :
    handle_googlechat_message P db evt env = ⟨P, db, []⟩ := by
  unfold handle_googlechat_message
  rw [if_neg hlocal, if_pos hdup]

/-- On a fresh (non-duplicate) inbound message, whatever happens afterwards,
the provisional set is untouched and the remote id has been appended to the
bounded history. -/
theorem hgmAfterRoom_dedup_fields (P2 : Portal) (room : String) (db : DB)
    (evt : GCMessage) (env : GCMessageEnv) :
    (hgmAfterRoom P2 room db evt env).portal.localDedup = P2.localDedup ∧
    (hgmAfterRoom P2 room db evt env).portal.dedup = P2.dedup := by
  unfold hgmAfterRoom
  split
  · simp
  · simp
    split <;> simp

theorem hgm_fresh_dedup_fields (P : Portal) (db : DB) (evt : GCMessage) (env : GCMessageEnv)
    (hlocal : evt.local_id ∉ P.localDedup) (hfresh : evt.msg_id ∉ P.dedup) :
    (handle_googlechat_message P db evt env).portal.localDedup = P.localDedup ∧
    (handle_googlechat_message P db evt env).portal.dedup =
      dedupAppendLeft P.dedup evt.msg_id := by
  unfold handle_googlechat_message
  rw [if_neg hlocal, if_neg hfresh]
  dsimp only
  split
  · rename_i room heq
    have := hgmAfterRoom_dedup_fields
      { P with dedup := dedupAppendLeft P.dedup evt.msg_id } room db evt env
    simpa using this
  · split
    · rename_i room heq
      have := hgmAfterRoom_dedup_fields
        { P with dedup := dedupAppendLeft P.dedup evt.msg_id, mxid := some room }
        room db evt env
      simpa using this
    · simp

/-- When the own-message gate vetoes, `hgmAfterRoom` changes nothing. -/
theorem hgmAfterRoom_own_veto (P2 : Portal) (room : String) (db : DB)
    (evt : GCMessage) (env : GCMessageEnv) (h : env.bridgeOwnOk = false) :
    hgmAfterRoom P2 room db evt env = ⟨P2, db, []⟩ := by
  unfold hgmAfterRoom
  rw [h]
  rfl

/-- When no Matrix event would be produced (no text body, no attachment
events), `hgmAfterRoom` stores nothing. -/
theorem hgmAfterRoom_no_events (P2 : Portal) (room : String) (db : DB)
    (evt : GCMessage) (env : GCMessageEnv)
    (htext : evt.text_body = "") (hatt : env.attachmentEvents = []) :
    hgmAfterRoom P2 room db evt env = ⟨P2, db, []⟩ := by
  unfold hgmAfterRoom
  split
  · rfl
  · simp [htext, hatt]

/-! ## Claim theorems -/

/-- C1: for a portal with an existing Matrix room, delivering the same inbound
remote message (same remote id, local id not in the provisional set) twice in
succession yields the rows and events of a single delivery: after the first
delivery the remote id is in the bounded dedup history, and the second delivery
— whatever the environment answers — returns the state of the first delivery
unchanged with an empty effect trace (no Message row, no home-network event). -/
theorem c1_inbound_dedup_idempotent (P : Portal) (db : DB) (evt : GCMessage)
    (env env2 : GCMessageEnv) (room : String)
    (_hroom : P.mxid = some room)
    (hlocal : evt.local_id ∉ P.localDedup)
    (hfresh : evt.msg_id ∉ P.dedup) :
    evt.msg_id ∈ (handle_googlechat_message P db evt env).portal.dedup ∧
    handle_googlechat_message (handle_googlechat_message P db evt env).portal
        (handle_googlechat_message P db evt env).db evt env2 =
      ⟨(handle_googlechat_message P db evt env).portal,
       (handle_googlechat_message P db evt env).db, []⟩ := by
  obtain ⟨hl, hd⟩ := hgm_fresh_dedup_fields P db evt env hlocal hfresh
  have hmem : evt.msg_id ∈ (handle_googlechat_message P db evt env).portal.dedup := by
    rw [hd]; exact mem_dedupAppendLeft _ _
  refine ⟨hmem, ?_⟩
  apply hgm_drop_by_history
  · rw [hl]; exact hlocal
  · exact hmem

theorem c1_witness :
    (some "!room" = some "!room" ∧ "" ∉ (["x"] : List String) ∧
      "msg1" ∉ (["m0"] : List String)) ∧
    ("msg1" ∈ (handle_googlechat_message
        { gcid := "dm:g", gc_receiver := "recv", mxid := some "!room",
          localDedup := ["x"], dedup := ["m0"] }
        ⟨[], []⟩
        { sender_id := "u1", msg_id := "msg1", local_id := "", create_time := 5000,
          text_body := "hello", parent_topic_id := "" }
        { createRoomResult := none, bridgeOwnOk := true, textEventId := "$e1",
          attachmentEvents := [] }).portal.dedup ∧
      handle_googlechat_message
        (handle_googlechat_message
          { gcid := "dm:g", gc_receiver := "recv", mxid := some "!room",
            localDedup := ["x"], dedup := ["m0"] }
          ⟨[], []⟩
          { sender_id := "u1", msg_id := "msg1", local_id := "", create_time := 5000,
            text_body := "hello", parent_topic_id := "" }
          { createRoomResult := none, bridgeOwnOk := true, textEventId := "$e1",
            attachmentEvents := [] }).portal
        (handle_googlechat_message
          { gcid := "dm:g", gc_receiver := "recv", mxid := some "!room",
            localDedup := ["x"], dedup := ["m0"] }
          ⟨[], []⟩
          { sender_id := "u1", msg_id := "msg1", local_id := "", create_time := 5000,
            text_body := "hello", parent_topic_id := "" }
          { createRoomResult := none, bridgeOwnOk := true, textEventId := "$e1",
            attachmentEvents := [] }).db
        { sender_id := "u1", msg_id := "msg1", local_id := "", create_time := 5000,
          text_body := "hello", parent_topic_id := "" }
        { createRoomResult := some "!other", bridgeOwnOk := true, textEventId := "$e2",
          attachmentEvents := [("$a1", "m.image")] } =
      ⟨(handle_googlechat_message
          { gcid := "dm:g", gc_receiver := "recv", mxid := some "!room",
            localDedup := ["x"], dedup := ["m0"] }
          ⟨[], []⟩
          { sender_id := "u1", msg_id := "msg1", local_id := "", create_time := 5000,
            text_body := "hello", parent_topic_id := "" }
          { createRoomResult := none, bridgeOwnOk := true, textEventId := "$e1",
            attachmentEvents := [] }).portal,
       (handle_googlechat_message
          { gcid := "dm:g", gc_receiver := "recv", mxid := some "!room",
            localDedup := ["x"], dedup := ["m0"] }
          ⟨[], []⟩
          { sender_id := "u1", msg_id := "msg1", local_id := "", create_time := 5000,
            text_body := "hello", parent_topic_id := "" }
          { createRoomResult := none, bridgeOwnOk := true, textEventId := "$e1",
            attachmentEvents := [] }).db, []⟩) :=
  ⟨⟨rfl, by decide, by decide⟩,
   c1_inbound_dedup_idempotent _ _ _ _ _ "!room" rfl (by decide) (by decide)⟩

/-- C9: a fresh inbound remote message id is appended to the bounded dedup
history before room creation, own-message suppression, and event production;
so when handling aborts at any of those points (room creation yields no room,
the own-puppet rule vetoes, or no events are produced), no Message row is
created, yet a redelivery of the same remote id is dropped as a duplicate
(state unchanged, no effects). -/
theorem c9_dedup_added_before_aborts (P : Portal) (db : DB) (evt : GCMessage)
    (env env2 : GCMessageEnv)
    (hlocal : evt.local_id ∉ P.localDedup)
    (hfresh : evt.msg_id ∉ P.dedup)
    (habort : (P.mxid = none ∧ env.createRoomResult = none)
              ∨ env.bridgeOwnOk = false
              ∨ (evt.text_body = "" ∧ env.attachmentEvents = [])) :
    (handle_googlechat_message P db evt env).db.messages = db.messages ∧
    evt.msg_id ∈ (handle_googlechat_message P db evt env).portal.dedup ∧
    handle_googlechat_message (handle_googlechat_message P db evt env).portal
        (handle_googlechat_message P db evt env).db evt env2 =
      ⟨(handle_googlechat_message P db evt env).portal,
       (handle_googlechat_message P db evt env).db, []⟩ := by
  obtain ⟨hl, hd⟩ := hgm_fresh_dedup_fields P db evt env hlocal hfresh
  have hmem : evt.msg_id ∈ (handle_googlechat_message P db evt env).portal.dedup := by
    rw [hd]; exact mem_dedupAppendLeft _ _
  have hdb : (handle_googlechat_message P db evt env).db.messages = db.messages := by
    unfold handle_googlechat_message
    rw [if_neg hlocal, if_neg hfresh]
    dsimp only
    rcases habort with ⟨hmx, hcr⟩ | hown | ⟨htext, hatt⟩
    · simp [hmx, hcr]
    · split
      · rw [hgmAfterRoom_own_veto _ _ _ _ _ hown]
      · split
        · rw [hgmAfterRoom_own_veto _ _ _ _ _ hown]
        · rfl
    · split
      · rw [hgmAfterRoom_no_events _ _ _ _ _ htext hatt]
      · split
        · rw [hgmAfterRoom_no_events _ _ _ _ _ htext hatt]
        · rfl
  refine ⟨hdb, hmem, ?_⟩
  apply hgm_drop_by_history
  · rw [hl]; exact hlocal
  · exact hmem

theorem c9_witness :
    ("" ∉ ([] : List String) ∧ "msg9" ∉ ([] : List String) ∧
      ((none : Option String) = none ∧ (none : Option String) = none)) ∧
    ((handle_googlechat_message
        { gcid := "space:s", gc_receiver := "" } ⟨[], []⟩
        { sender_id := "u9", msg_id := "msg9", local_id := "", create_time := 7000,
          text_body := "hey", parent_topic_id := "" }
        { createRoomResult := none, bridgeOwnOk := true, textEventId := "$x",
          attachmentEvents := [] }).db.messages = [] ∧
      "msg9" ∈ (handle_googlechat_message
        { gcid := "space:s", gc_receiver := "" } ⟨[], []⟩
        { sender_id := "u9", msg_id := "msg9", local_id := "", create_time := 7000,
          text_body := "hey", parent_topic_id := "" }
        { createRoomResult := none, bridgeOwnOk := true, textEventId := "$x",
          attachmentEvents := [] }).portal.dedup ∧
      handle_googlechat_message
        (handle_googlechat_message
          { gcid := "space:s", gc_receiver := "" } ⟨[], []⟩
          { sender_id := "u9", msg_id := "msg9", local_id := "", create_time := 7000,
            text_body := "hey", parent_topic_id := "" }
          { createRoomResult := none, bridgeOwnOk := true, textEventId := "$x",
            attachmentEvents := [] }).portal
        (handle_googlechat_message
          { gcid := "space:s", gc_receiver := "" } ⟨[], []⟩
          { sender_id := "u9", msg_id := "msg9", local_id := "", create_time := 7000,
            text_body := "hey", parent_topic_id := "" }
          { createRoomResult := none, bridgeOwnOk := true, textEventId := "$x",
            attachmentEvents := [] }).db
        { sender_id := "u9", msg_id := "msg9", local_id := "", create_time := 7000,
          text_body := "hey", parent_topic_id := "" }
        { createRoomResult := some "!late", bridgeOwnOk := true, textEventId := "$y",
          attachmentEvents := [] } =
      ⟨(handle_googlechat_message
          { gcid := "space:s", gc_receiver := "" } ⟨[], []⟩
          { sender_id := "u9", msg_id := "msg9", local_id := "", create_time := 7000,
            text_body := "hey", parent_topic_id := "" }
          { createRoomResult := none, bridgeOwnOk := true, textEventId := "$x",
            attachmentEvents := [] }).portal,
       (handle_googlechat_message
          { gcid := "space:s", gc_receiver := "" } ⟨[], []⟩
          { sender_id := "u9", msg_id := "msg9", local_id := "", create_time := 7000,
            text_body := "hey", parent_topic_id := "" }
          { createRoomResult := none, bridgeOwnOk := true, textEventId := "$x",
            attachmentEvents := [] }).db, []⟩) :=
  ⟨⟨by decide, by decide, ⟨rfl, rfl⟩⟩,
   c9_dedup_added_before_aborts _ _ _ _ _ (by decide) (by decide) (Or.inl ⟨rfl, rfl⟩)⟩

/-- C2 counterexample: an outbound text message whose remote send call fails.
The failure is recorded (a failure checkpoint is in the trace), yet the
provisional id is still in the local dedup set afterwards — refuting the
claim that the id is removed once the call's result is recorded for every
outcome of the remote call. -/
theorem c2_counterexample :
    Effect.checkpointFail "$evt" ∈ (handle_matrix_message
        { gcid := "dm:g", gc_receiver := "recv", mxid := some "!room" } ⟨[], []⟩ "sender"
        { msgtype := "m.text", edit_target := none, reply_to_id := none } "$evt"
        { localRand := 7, outcome := SendOutcome.error }).trace ∧
    mkLocalId 7 ∈ (handle_matrix_message
        { gcid := "dm:g", gc_receiver := "recv", mxid := some "!room" } ⟨[], []⟩ "sender"
        { msgtype := "m.text", edit_target := none, reply_to_id := none } "$evt"
        { localRand := 7, outcome := SendOutcome.error }).portal.localDedup := by
  decide

/-- C2 (amended): for every outbound non-edit message of a supported type
(text, notice, or media), the provisional id is added to the local dedup set
before the remote send call (the trace begins with the add followed by the
send); when the call succeeds the id is removed once the result is recorded,
restoring the set; when the call fails the id is not removed and remains in
the set. -/
theorem c2_local_dedup_lifecycle (P : Portal) (db : DB) (senderGcid : String)
    (message : MatrixMessage) (event_id : String) (env : MatrixMessageEnv)
    (hnoedit : message.edit_target = none)
    (hsupported : (message.msgtype == "m.text" || message.msgtype == "m.notice"
                   || isMediaMsgtype message.msgtype) = true) :
    (∃ rest, (handle_matrix_message P db senderGcid message event_id env).trace =
        Effect.addLocalDedup (mkLocalId env.localRand)
          :: Effect.remoteSendMessage (mkLocalId env.localRand) :: rest) ∧
    (∀ resp, env.outcome = SendOutcome.ok resp →
      (handle_matrix_message P db senderGcid message event_id env).portal.localDedup =
        P.localDedup) ∧
    (env.outcome = SendOutcome.error →
      (handle_matrix_message P db senderGcid message event_id env).portal.localDedup =
        mkLocalId env.localRand :: P.localDedup) := by
  unfold handle_matrix_message
  rw [hnoedit]
  dsimp only
  rw [if_pos hsupported]
  refine ⟨?_, ?_, ?_⟩
  · cases h : env.outcome <;> simp [h]
  · intro resp h
    rw [h]
    simp [List.erase_cons_head]
  · intro h
    rw [h]

theorem c2_witness :
    ((none : Option String) = none ∧
      (("m.text" == "m.text" || "m.text" == "m.notice" || isMediaMsgtype "m.text") = true) ∧
      (∃ rest, (handle_matrix_message
          { gcid := "dm:g", gc_receiver := "recv", mxid := some "!room" } ⟨[], []⟩ "sender"
          { msgtype := "m.text", edit_target := none, reply_to_id := none } "$evt"
          { localRand := 3, outcome := SendOutcome.ok ⟨"gcm1", 9000⟩ }).trace =
        Effect.addLocalDedup (mkLocalId 3)
          :: Effect.remoteSendMessage (mkLocalId 3) :: rest) ∧
      (handle_matrix_message
          { gcid := "dm:g", gc_receiver := "recv", mxid := some "!room" } ⟨[], []⟩ "sender"
          { msgtype := "m.text", edit_target := none, reply_to_id := none } "$evt"
          { localRand := 3, outcome := SendOutcome.ok ⟨"gcm1", 9000⟩ }).portal.localDedup
        = []) :=
  ⟨rfl, by decide,
   (c2_local_dedup_lifecycle
      { gcid := "dm:g", gc_receiver := "recv", mxid := some "!room" } ⟨[], []⟩ "sender"
      { msgtype := "m.text", edit_target := none, reply_to_id := none } "$evt"
      { localRand := 3, outcome := SendOutcome.ok ⟨"gcm1", 9000⟩ } rfl (by decide)).1,
   (c2_local_dedup_lifecycle
      { gcid := "dm:g", gc_receiver := "recv", mxid := some "!room" } ⟨[], []⟩ "sender"
      { msgtype := "m.text", edit_target := none, reply_to_id := none } "$evt"
      { localRand := 3, outcome := SendOutcome.ok ⟨"gcm1", 9000⟩ } rfl (by decide)).2.1
      ⟨"gcm1", 9000⟩ rfl⟩

/-- Dict assignment then lookup of the same key finds the assigned value. -/
theorem find?_insertEdit (m : List (String × Nat)) (k : String) (v : Nat) :
    (insertEdit m k v).find? (fun p => p.1 == k) = some (k, v) := by
  unfold insertEdit
  split
  · rename_i hany
    induction m with
    | nil => simp at hany
    | cons a t ih =>
      by_cases h : (a.1 == k) = true
      · simp only [List.map_cons, if_pos h, List.find?_cons, beq_self_eq_true]
      · have hf : (a.1 == k) = false := by simpa using h
        simp only [List.any_cons, hf, Bool.false_or] at hany
        rw [List.map_cons, if_neg h, List.find?_cons, hf]
        exact ih hany
  · rename_i hany
    have hnone : m.find? (fun p => p.1 == k) = none := by
      rw [List.find?_eq_none]
      intro x hx
      rcases List.any_eq_false.mp (Bool.not_eq_true _ ▸ hany) x hx with h
      · simp_all
    rw [List.find?_append, hnone]
    simp

theorem lookupEdit_insertEdit (m : List (String × Nat)) (k : String) (v : Nat) :
    lookupEdit (insertEdit m k v) k = some v := by
  unfold lookupEdit
  rw [find?_insertEdit]
  rfl

/-- An inbound edit whose effective timestamp is ≤ the recorded last edit
timestamp for its message id changes nothing and emits nothing. -/
theorem hge_drop_stale (P : Portal) (db : DB) (evt : GCEditEvent) (env : GCEditEnv)
    (prev : Nat)
    (hprev : lookupEdit P.editDedup evt.msg_id = some prev)
    (hle : editTs evt ≤ prev) :
    handle_googlechat_edit P db evt env = ⟨P, db, []⟩ := by
  unfold handle_googlechat_edit
  cases hmx : P.mxid with
  | none => rfl
  | some room =>
    dsimp only
    split
    · rfl
    · rw [hprev]
      simp [hle]

/-- C3: for the same remote message id, applying an edit with timestamp T2 and
then one with timestamp T1 < T2 leaves only the T2 edit in effect: the T2 edit
(fresh and passing every gate) sends its Matrix event and records T2 in the
edit-dedup map, and the later-arriving T1 edit is then dropped — state
unchanged, no event — because its timestamp is ≤ the recorded one. -/
theorem c3_edit_monotonicity (P : Portal) (db : DB) (evt1 evt2 : GCEditEvent)
    (env1 env2 : GCEditEnv) (room : String) (target : DBMessage) (T1 T2 : Nat)
    (hroom : P.mxid = some room)
    (hsame : evt1.msg_id = evt2.msg_id)
    (ht1 : editTs evt1 = T1) (ht2 : editTs evt2 = T2) (hlt : T1 < T2)
    (hok2 : env2.bridgeOwnOk = true)
    (hfresh : ∀ prev, lookupEdit P.editDedup evt2.msg_id = some prev → prev < T2)
    (htarget : getMessageByGcid db.messages evt2.msg_id P.gcid P.gc_receiver 0 = some target)
    (htext : target.msgtype = "m.text") (hbody : evt2.text_body ≠ "") :
    handle_googlechat_edit P db evt2 env2 =
      ⟨{ P with editDedup := insertEdit P.editDedup evt2.msg_id T2 }, db,
       [Effect.matrixEvent env2.sentEventId, Effect.deliveryReceipt env2.sentEventId]⟩ ∧
    handle_googlechat_edit
        { P with editDedup := insertEdit P.editDedup evt2.msg_id T2 } db evt1 env1 =
      ⟨{ P with editDedup := insertEdit P.editDedup evt2.msg_id T2 }, db, []⟩ := by
  constructor
  · unfold handle_googlechat_edit
    rw [hroom]
    dsimp only
    rw [hok2]
    rw [if_neg (by simp)]
    have hdrop :
        (match lookupEdit P.editDedup evt2.msg_id with
          | some prev => decide (prev ≥ editTs evt2)
          | none => false) = false := by
      cases hl : lookupEdit P.editDedup evt2.msg_id with
      | none => rfl
      | some prev =>
        have := hfresh prev hl
        simp only [ge_iff_le, decide_eq_false_iff_not, not_le]
        omega
    rw [hdrop]
    rw [if_neg (by simp)]
    rw [htarget, ht2]
    simp [htext, hbody]
  · exact hge_drop_stale _ _ _ _ T2
      (by rw [hsame]; exact lookupEdit_insertEdit _ _ _)
      (by rw [ht1]; omega)

theorem c3_witness :
    ((some "!r3" : Option String) = some "!r3" ∧ "e3" = "e3" ∧
      editTs { sender_id := "u", msg_id := "e3", last_edit_time := 100,
               last_update_time := 0, text_body := "" : GCEditEvent } = 100 ∧
      editTs { sender_id := "u", msg_id := "e3", last_edit_time := 200,
               last_update_time := 0, text_body := "new" : GCEditEvent } = 200 ∧
      (100 : Nat) < 200) ∧
    (handle_googlechat_edit
        { gcid := "dm:g", gc_receiver := "rv", mxid := some "!r3" }
        ⟨[{ mxid := "$orig", mx_room := "!r3", gcid := "e3", gc_chat := "dm:g",
            gc_receiver := "rv", gc_parent_id := none, index := 0, timestamp := 1,
            msgtype := "m.text", gc_sender := "u" }], []⟩
        { sender_id := "u", msg_id := "e3", last_edit_time := 200,
          last_update_time := 0, text_body := "new" }
        { bridgeOwnOk := true, sentEventId := "$edit2" } =
      ⟨{ gcid := "dm:g", gc_receiver := "rv", mxid := some "!r3",
         editDedup := [("e3", 200)] },
       ⟨[{ mxid := "$orig", mx_room := "!r3", gcid := "e3", gc_chat := "dm:g",
           gc_receiver := "rv", gc_parent_id := none, index := 0, timestamp := 1,
           msgtype := "m.text", gc_sender := "u" }], []⟩,
       [Effect.matrixEvent "$edit2", Effect.deliveryReceipt "$edit2"]⟩ ∧
      handle_googlechat_edit
        { gcid := "dm:g", gc_receiver := "rv", mxid := some "!r3",
          editDedup := [("e3", 200)] }
        ⟨[{ mxid := "$orig", mx_room := "!r3", gcid := "e3", gc_chat := "dm:g",
            gc_receiver := "rv", gc_parent_id := none, index := 0, timestamp := 1,
            msgtype := "m.text", gc_sender := "u" }], []⟩
        { sender_id := "u", msg_id := "e3", last_edit_time := 100,
          last_update_time := 0, text_body := "" }
        { bridgeOwnOk := true, sentEventId := "$edit1" } =
      ⟨{ gcid := "dm:g", gc_receiver := "rv", mxid := some "!r3",
         editDedup := [("e3", 200)] },
       ⟨[{ mxid := "$orig", mx_room := "!r3", gcid := "e3", gc_chat := "dm:g",
           gc_receiver := "rv", gc_parent_id := none, index := 0, timestamp := 1,
           msgtype := "m.text", gc_sender := "u" }], []⟩, []⟩) :=
  ⟨⟨rfl, rfl, by decide, by decide, by decide⟩, by
    have := c3_edit_monotonicity
      { gcid := "dm:g", gc_receiver := "rv", mxid := some "!r3" }
      ⟨[{ mxid := "$orig", mx_room := "!r3", gcid := "e3", gc_chat := "dm:g",
          gc_receiver := "rv", gc_parent_id := none, index := 0, timestamp := 1,
          msgtype := "m.text", gc_sender := "u" }], []⟩
      { sender_id := "u", msg_id := "e3", last_edit_time := 100,
        last_update_time := 0, text_body := "" }
      { sender_id := "u", msg_id := "e3", last_edit_time := 200,
        last_update_time := 0, text_body := "new" }
      { bridgeOwnOk := true, sentEventId := "$edit1" }
      { bridgeOwnOk := true, sentEventId := "$edit2" }
      "!r3"
      { mxid := "$orig", mx_room := "!r3", gcid := "e3", gc_chat := "dm:g",
        gc_receiver := "rv", gc_parent_id := none, index := 0, timestamp := 1,
        msgtype := "m.text", gc_sender := "u" }
      100 200 rfl rfl (by decide) (by decide) (by decide) (by decide)
      (by decide) rfl (by decide)
    simpa using this⟩

/-- The second summand of one `readBlocks` unfolding is always empty: either
the cap is exhausted or the stream is. -/
theorem readBlocks_tail_nil (m : Nat) (s : List Nat) :
    (s.drop m).take (m - (s.take m).length) = [] := by
  rcases le_or_lt m s.length with h | h
  · have : (s.take m).length = m := by
      rw [List.length_take]
      omega
    rw [this]
    simp
  · have : s.drop m = [] := List.drop_eq_nil_of_le (le_of_lt h)
    rw [this]
    simp

/-- The block-read loop returns exactly the first `maxSize` bytes of the
stream. -/
theorem readBlocks_eq_take (maxSize : Nat) (stream : List Nat) :
    readBlocks maxSize stream = stream.take maxSize := by
  induction maxSize, stream using readBlocks.induct with
  | case1 m s blk h =>
    unfold readBlocks
    rw [if_pos h]
    rw [List.isEmpty_eq_true] at h
    exact h.symm
  | case2 m s blk h ih =>
    unfold readBlocks
    rw [if_neg h, ih, readBlocks_tail_nil]
    simp

/-- C4: for an external attachment download with a positive size cap and a
successful HTTP status: a response whose declared `Content-Length` exceeds the
cap is rejected with a too-large error before any body bytes are stored, and a
response with no declared length reads exactly the first `maxSize` bytes of
the stream — the cumulative bytes read (the `readBlocks` loop output) never
exceed the cap. -/
theorem c4_download_size_cap (urlPathLast : String) (resp : HttpResponse)
    (maxSize : Nat) (sniff : List Nat → String)
    (hstatus : resp.status < 400) (hpos : 0 < maxSize) :
    (∀ L, resp.contentLength = some L → maxSize < L →
      download_external_attachment urlPathLast resp maxSize sniff =
        Except.error DownloadError.fileTooLarge) ∧
    (resp.contentLength = none →
      ∃ mime, download_external_attachment urlPathLast resp maxSize sniff =
        Except.ok (resp.body.take maxSize, mime, urlPathLast)) ∧
    (readBlocks maxSize resp.body).length ≤ maxSize := by
  refine ⟨?_, ?_, ?_⟩
  · intro L hL hlt
    unfold download_external_attachment
    rw [if_neg (by omega)]
    rw [if_pos]
    rw [hL]
    exact ⟨hpos, hlt⟩
  · intro hnone
    unfold download_external_attachment
    rw [if_neg (by omega)]
    rw [hnone]
    rw [if_neg (by simp)]
    rw [readBlocks_eq_take]
    exact ⟨_, rfl⟩
  · rw [readBlocks_eq_take]
    simp

theorem c4_witness :
    ((5 : Nat) < 400 ∧ (0 : Nat) < 3) ∧
    (download_external_attachment "pic.png"
        { status := 200, contentLength := some 10, contentType := some "image/png",
          body := [1, 2, 3, 4, 5, 6, 7, 8, 9, 10] } 3 (fun _ => "text/plain") =
      Except.error DownloadError.fileTooLarge ∧
      (∃ mime, download_external_attachment "pic.png"
        { status := 200, contentLength := none, contentType := some "image/png",
          body := [1, 2, 3, 4, 5, 6, 7, 8, 9, 10] } 3 (fun _ => "text/plain") =
        Except.ok ([1, 2, 3], mime, "pic.png")) ∧
      (readBlocks 3 [1, 2, 3, 4, 5, 6, 7, 8, 9, 10]).length ≤ 3) := by
  refine ⟨⟨by decide, by decide⟩, ?_, ?_, ?_⟩
  · exact (c4_download_size_cap "pic.png"
      { status := 200, contentLength := some 10, contentType := some "image/png",
        body := [1, 2, 3, 4, 5, 6, 7, 8, 9, 10] } 3 (fun _ => "text/plain")
      (by decide) (by decide)).1 10 rfl (by decide)
  · exact (c4_download_size_cap "pic.png"
      { status := 200, contentLength := none, contentType := some "image/png",
        body := [1, 2, 3, 4, 5, 6, 7, 8, 9, 10] } 3 (fun _ => "text/plain")
      (by decide) (by decide)).2.1 rfl
  · exact (c4_download_size_cap "pic.png"
      { status := 200, contentLength := none, contentType := some "image/png",
        body := [1, 2, 3, 4, 5, 6, 7, 8, 9, 10] } 3 (fun _ => "text/plain")
      (by decide) (by decide)).2.2

/-- A reaction matching an existing Reaction row is dropped: store unchanged,
one dropped-event checkpoint, no remote call. -/
theorem hmr_duplicate_drop (P : Portal) (db : DB) (senderGcid : String)
    (reaction_id target_id emoji : String) (fakeTs : Nat) (outcome : ReactOutcome)
    (target : DBMessage) (existing : DBReaction)
    (htarget : getMessageByMxid db.messages target_id (P.mxid.getD "") = some target)
    (hexisting : getReactionByGcid db.reactions (rstripVS emoji) senderGcid target.gcid
        target.gc_chat target.gc_receiver = some existing) :
    handle_matrix_reaction P db senderGcid reaction_id target_id emoji fakeTs outcome =
      ⟨P, db, [Effect.checkpointDropped reaction_id "duplicate reaction"]⟩ := by
  unfold handle_matrix_reaction
  rw [htarget]
  dsimp only
  rw [hexisting]

/-- C5: an outbound Matrix reaction whose normalized emoji, sender, and target
message match an already-stored Reaction row is dropped as a duplicate: no new
Reaction row (the store is unchanged), no remote react call — the whole run is
one dropped-event checkpoint. -/
theorem c5_duplicate_reaction_noop (P : Portal) (db : DB) (senderGcid : String)
    (reaction_id target_id emoji : String) (fakeTs : Nat) (outcome : ReactOutcome)
    (target : DBMessage) (existing : DBReaction)
    (htarget : getMessageByMxid db.messages target_id (P.mxid.getD "") = some target)
    (hexisting : getReactionByGcid db.reactions (rstripVS emoji) senderGcid target.gcid
        target.gc_chat target.gc_receiver = some existing) :
    handle_matrix_reaction P db senderGcid reaction_id target_id emoji fakeTs outcome =
      ⟨P, db, [Effect.checkpointDropped reaction_id "duplicate reaction"]⟩ :=
  hmr_duplicate_drop P db senderGcid reaction_id target_id emoji fakeTs outcome
    target existing htarget hexisting

theorem c5_witness :
    (getMessageByMxid
        [{ mxid := "$t", mx_room := "!r5", gcid := "gm5", gc_chat := "dm:g5",
           gc_receiver := "rv", gc_parent_id := none, index := 0, timestamp := 1,
           msgtype := "m.text", gc_sender := "u5" }] "$t" "!r5" =
      some { mxid := "$t", mx_room := "!r5", gcid := "gm5", gc_chat := "dm:g5",
             gc_receiver := "rv", gc_parent_id := none, index := 0, timestamp := 1,
             msgtype := "m.text", gc_sender := "u5" } ∧
      getReactionByGcid
        [{ mxid := "$oldreact", mx_room := "!r5", emoji := "x", gc_sender := "me",
           gc_msgid := "gm5", gc_chat := "dm:g5", gc_receiver := "rv", timestamp := 2 }]
        (rstripVS "x") "me" "gm5" "dm:g5" "rv" =
      some { mxid := "$oldreact", mx_room := "!r5", emoji := "x", gc_sender := "me",
             gc_msgid := "gm5", gc_chat := "dm:g5", gc_receiver := "rv", timestamp := 2 }) ∧
    handle_matrix_reaction
      { gcid := "dm:g5", gc_receiver := "rv", mxid := some "!r5" }
      ⟨[{ mxid := "$t", mx_room := "!r5", gcid := "gm5", gc_chat := "dm:g5",
          gc_receiver := "rv", gc_parent_id := none, index := 0, timestamp := 1,
          msgtype := "m.text", gc_sender := "u5" }],
       [{ mxid := "$oldreact", mx_room := "!r5", emoji := "x", gc_sender := "me",
          gc_msgid := "gm5", gc_chat := "dm:g5", gc_receiver := "rv", timestamp := 2 }]⟩
      "me" "$newreact" "$t" "x" 99 ReactOutcome.ok =
    ⟨{ gcid := "dm:g5", gc_receiver := "rv", mxid := some "!r5" },
     ⟨[{ mxid := "$t", mx_room := "!r5", gcid := "gm5", gc_chat := "dm:g5",
         gc_receiver := "rv", gc_parent_id := none, index := 0, timestamp := 1,
         msgtype := "m.text", gc_sender := "u5" }],
      [{ mxid := "$oldreact", mx_room := "!r5", emoji := "x", gc_sender := "me",
         gc_msgid := "gm5", gc_chat := "dm:g5", gc_receiver := "rv", timestamp := 2 }]⟩,
     [Effect.checkpointDropped "$newreact" "duplicate reaction"]⟩ :=
  ⟨⟨by decide, by decide⟩,
   c5_duplicate_reaction_noop
     { gcid := "dm:g5", gc_receiver := "rv", mxid := some "!r5" }
     ⟨[{ mxid := "$t", mx_room := "!r5", gcid := "gm5", gc_chat := "dm:g5",
         gc_receiver := "rv", gc_parent_id := none, index := 0, timestamp := 1,
         msgtype := "m.text", gc_sender := "u5" }],
      [{ mxid := "$oldreact", mx_room := "!r5", emoji := "x", gc_sender := "me",
         gc_msgid := "gm5", gc_chat := "dm:g5", gc_receiver := "rv", timestamp := 2 }]⟩
     "me" "$newreact" "$t" "x" 99 ReactOutcome.ok
     { mxid := "$t", mx_room := "!r5", gcid := "gm5", gc_chat := "dm:g5",
       gc_receiver := "rv", gc_parent_id := none, index := 0, timestamp := 1,
       msgtype := "m.text", gc_sender := "u5" }
     { mxid := "$oldreact", mx_room := "!r5", emoji := "x", gc_sender := "me",
       gc_msgid := "gm5", gc_chat := "dm:g5", gc_receiver := "rv", timestamp := 2 }
     (by decide) (by decide)⟩

/-- C10: a failed outbound reaction is not rolled back.  With a fresh
(non-duplicate) reaction whose remote call fails: the Reaction row is inserted
before the remote react call (trace order: insert, remote call, failure
checkpoint), the row is still in the store afterwards, and a retry of the same
(emoji, sender, target) reaction against that store is dropped as a duplicate
without any remote call. -/
theorem c10_reaction_not_atomic_on_error (P : Portal) (db : DB) (senderGcid : String)
    (reaction_id retry_id target_id emoji : String) (fakeTs retryTs : Nat)
    (retryOutcome : ReactOutcome) (target : DBMessage)
    (htarget : getMessageByMxid db.messages target_id (P.mxid.getD "") = some target)
    (hfresh : getReactionByGcid db.reactions (rstripVS emoji) senderGcid target.gcid
        target.gc_chat target.gc_receiver = none) :
    (handle_matrix_reaction P db senderGcid reaction_id target_id emoji fakeTs
        ReactOutcome.error).trace =
      [Effect.insertReactionRow
        { mxid := reaction_id, mx_room := P.mxid.getD "", emoji := rstripVS emoji,
          gc_sender := senderGcid, gc_msgid := target.gcid, gc_chat := target.gc_chat,
          gc_receiver := target.gc_receiver, timestamp := fakeTs },
       Effect.remoteReact target.gc_chat target.gcid (rstripVS emoji),
       Effect.checkpointFail reaction_id] ∧
    { mxid := reaction_id, mx_room := P.mxid.getD "", emoji := rstripVS emoji,
      gc_sender := senderGcid, gc_msgid := target.gcid, gc_chat := target.gc_chat,
      gc_receiver := target.gc_receiver, timestamp := fakeTs : DBReaction } ∈
      (handle_matrix_reaction P db senderGcid reaction_id target_id emoji fakeTs
        ReactOutcome.error).db.reactions ∧
    handle_matrix_reaction P
        (handle_matrix_reaction P db senderGcid reaction_id target_id emoji fakeTs
          ReactOutcome.error).db
        senderGcid retry_id target_id emoji retryTs retryOutcome =
      ⟨P, (handle_matrix_reaction P db senderGcid reaction_id target_id emoji fakeTs
            ReactOutcome.error).db,
       [Effect.checkpointDropped retry_id "duplicate reaction"]⟩ := by
  have hrun : handle_matrix_reaction P db senderGcid reaction_id target_id emoji fakeTs
      ReactOutcome.error =
      ⟨P, { db with reactions := db.reactions ++
            [{ mxid := reaction_id, mx_room := P.mxid.getD "", emoji := rstripVS emoji,
               gc_sender := senderGcid, gc_msgid := target.gcid, gc_chat := target.gc_chat,
               gc_receiver := target.gc_receiver, timestamp := fakeTs }] },
       [Effect.insertReactionRow
          { mxid := reaction_id, mx_room := P.mxid.getD "", emoji := rstripVS emoji,
            gc_sender := senderGcid, gc_msgid := target.gcid, gc_chat := target.gc_chat,
            gc_receiver := target.gc_receiver, timestamp := fakeTs },
        Effect.remoteReact target.gc_chat target.gcid (rstripVS emoji),
        Effect.checkpointFail reaction_id]⟩ := by
    unfold handle_matrix_reaction
    rw [htarget]
    dsimp only
    rw [hfresh]
  have hfind : getReactionByGcid
      (db.reactions ++
        [{ mxid := reaction_id, mx_room := P.mxid.getD "", emoji := rstripVS emoji,
           gc_sender := senderGcid, gc_msgid := target.gcid, gc_chat := target.gc_chat,
           gc_receiver := target.gc_receiver, timestamp := fakeTs }])
      (rstripVS emoji) senderGcid target.gcid target.gc_chat target.gc_receiver =
      some { mxid := reaction_id, mx_room := P.mxid.getD "", emoji := rstripVS emoji,
             gc_sender := senderGcid, gc_msgid := target.gcid, gc_chat := target.gc_chat,
             gc_receiver := target.gc_receiver, timestamp := fakeTs } := by
    unfold getReactionByGcid at hfresh ⊢
    rw [List.find?_append, hfresh]
    simp
  refine ⟨by rw [hrun], by rw [hrun]; simp, ?_⟩
  rw [hrun]
  exact hmr_duplicate_drop P _ senderGcid retry_id target_id emoji retryTs retryOutcome
    target _ htarget hfind

theorem c10_witness :
    (getMessageByMxid
        [{ mxid := "$tt", mx_room := "!rx", gcid := "gmx", gc_chat := "dm:gx",
           gc_receiver := "rv", gc_parent_id := none, index := 0, timestamp := 1,
           msgtype := "m.text", gc_sender := "ux" }] "$tt" "!rx" =
      some { mxid := "$tt", mx_room := "!rx", gcid := "gmx", gc_chat := "dm:gx",
             gc_receiver := "rv", gc_parent_id := none, index := 0, timestamp := 1,
             msgtype := "m.text", gc_sender := "ux" } ∧
      getReactionByGcid [] (rstripVS "y") "me" "gmx" "dm:gx" "rv" = none) ∧
    ((handle_matrix_reaction
        { gcid := "dm:gx", gc_receiver := "rv", mxid := some "!rx" }
        ⟨[{ mxid := "$tt", mx_room := "!rx", gcid := "gmx", gc_chat := "dm:gx",
            gc_receiver := "rv", gc_parent_id := none, index := 0, timestamp := 1,
            msgtype := "m.text", gc_sender := "ux" }], []⟩
        "me" "$react1" "$tt" "y" 50 ReactOutcome.error).trace =
      [Effect.insertReactionRow
        { mxid := "$react1", mx_room := "!rx", emoji := rstripVS "y", gc_sender := "me",
          gc_msgid := "gmx", gc_chat := "dm:gx", gc_receiver := "rv", timestamp := 50 },
       Effect.remoteReact "dm:gx" "gmx" (rstripVS "y"),
       Effect.checkpointFail "$react1"] ∧
      { mxid := "$react1", mx_room := "!rx", emoji := rstripVS "y", gc_sender := "me",
        gc_msgid := "gmx", gc_chat := "dm:gx", gc_receiver := "rv",
        timestamp := 50 : DBReaction } ∈
      (handle_matrix_reaction
        { gcid := "dm:gx", gc_receiver := "rv", mxid := some "!rx" }
        ⟨[{ mxid := "$tt", mx_room := "!rx", gcid := "gmx", gc_chat := "dm:gx",
            gc_receiver := "rv", gc_parent_id := none, index := 0, timestamp := 1,
            msgtype := "m.text", gc_sender := "ux" }], []⟩
        "me" "$react1" "$tt" "y" 50 ReactOutcome.error).db.reactions ∧
      handle_matrix_reaction
        { gcid := "dm:gx", gc_receiver := "rv", mxid := some "!rx" }
        (handle_matrix_reaction
          { gcid := "dm:gx", gc_receiver := "rv", mxid := some "!rx" }
          ⟨[{ mxid := "$tt", mx_room := "!rx", gcid := "gmx", gc_chat := "dm:gx",
              gc_receiver := "rv", gc_parent_id := none, index := 0, timestamp := 1,
              msgtype := "m.text", gc_sender := "ux" }], []⟩
          "me" "$react1" "$tt" "y" 50 ReactOutcome.error).db
        "me" "$react2" "$tt" "y" 60 ReactOutcome.ok =
      ⟨{ gcid := "dm:gx", gc_receiver := "rv", mxid := some "!rx" },
       (handle_matrix_reaction
          { gcid := "dm:gx", gc_receiver := "rv", mxid := some "!rx" }
          ⟨[{ mxid := "$tt", mx_room := "!rx", gcid := "gmx", gc_chat := "dm:gx",
              gc_receiver := "rv", gc_parent_id := none, index := 0, timestamp := 1,
              msgtype := "m.text", gc_sender := "ux" }], []⟩
          "me" "$react1" "$tt" "y" 50 ReactOutcome.error).db,
       [Effect.checkpointDropped "$react2" "duplicate reaction"]⟩) :=
  ⟨⟨by decide, by decide⟩,
   c10_reaction_not_atomic_on_error
     { gcid := "dm:gx", gc_receiver := "rv", mxid := some "!rx" }
     ⟨[{ mxid := "$tt", mx_room := "!rx", gcid := "gmx", gc_chat := "dm:gx",
         gc_receiver := "rv", gc_parent_id := none, index := 0, timestamp := 1,
         msgtype := "m.text", gc_sender := "ux" }], []⟩
     "me" "$react1" "$react2" "$tt" "y" 50 60 ReactOutcome.ok
     { mxid := "$tt", mx_room := "!rx", gcid := "gmx", gc_chat := "dm:gx",
       gc_receiver := "rv", gc_parent_id := none, index := 0, timestamp := 1,
       msgtype := "m.text", gc_sender := "ux" }
     (by decide) (by decide)⟩

/-- C6: the initial power-level content of a newly created room grants the
inviting user's Matrix id level 50 exactly when the portal is a direct chat
(no entry at all for a group chat), and always grants the portal's main acting
identity level 100. -/
theorem c6_power_levels (isDirect : Bool) (sourceMxid mainIntentMxid : String)
    (hne : sourceMxid ≠ mainIntentMxid) :
    lookupPowerUser (powerLevelUsers true sourceMxid mainIntentMxid) sourceMxid = some 50 ∧
    lookupPowerUser (powerLevelUsers isDirect sourceMxid mainIntentMxid) mainIntentMxid =
      some 100 ∧
    lookupPowerUser (powerLevelUsers false sourceMxid mainIntentMxid) sourceMxid = none := by
  have hsm : (sourceMxid == mainIntentMxid) = false := by
    simpa using hne
  have hms : (mainIntentMxid == sourceMxid) = false := by
    simpa using (Ne.symm hne)
  refine ⟨?_, ?_, ?_⟩
  · simp [powerLevelUsers, setPowerUser, lookupPowerUser, hsm, hms]
  · cases isDirect <;>
      simp [powerLevelUsers, setPowerUser, lookupPowerUser, hsm, hms]
  · simp [powerLevelUsers, setPowerUser, lookupPowerUser, hsm, hms]

theorem c6_witness :
    ("@alice:hs" ≠ "@ghost:hs") ∧
    (lookupPowerUser (powerLevelUsers true "@alice:hs" "@ghost:hs") "@alice:hs" =
        some 50 ∧
      lookupPowerUser (powerLevelUsers true "@alice:hs" "@ghost:hs") "@ghost:hs" =
        some 100 ∧
      lookupPowerUser (powerLevelUsers false "@alice:hs" "@ghost:hs") "@alice:hs" =
        none) :=
  ⟨by decide, (c6_power_levels true "@alice:hs" "@ghost:hs" (by decide)).1,
   (c6_power_levels true "@alice:hs" "@ghost:hs" (by decide)).2.1,
   (c6_power_levels true "@alice:hs" "@ghost:hs" (by decide)).2.2⟩

/-- C7: deleting a portal with an existing Matrix room removes every Message
and Reaction row scoped to that room id, removes the portal's entries from
both in-memory index caches, and removes the portal's own store row — the
store-row delete being the last effect of the run. -/
theorem c7_portal_delete_cascade (P : Portal) (st : BridgeState) (room : String)
    (hroom : P.mxid = some room) :
    (∀ m ∈ (portalDelete P st).1.messages, m.mx_room ≠ room) ∧
    (∀ r ∈ (portalDelete P st).1.reactions, r.mx_room ≠ room) ∧
    (P.gcid, P.gc_receiver) ∉ (portalDelete P st).1.byGcid ∧
    room ∉ (portalDelete P st).1.byMxid ∧
    (P.gcid, P.gc_receiver) ∉ (portalDelete P st).1.portalRows ∧
    (portalDelete P st).2.getLast? =
      some (Effect.deletePortalRow P.gcid P.gc_receiver) := by
  unfold portalDelete
  rw [hroom]
  dsimp only
  refine ⟨?_, ?_, ?_, ?_, ?_, ?_⟩
  · intro m hm
    have := (List.mem_filter.mp hm).2
    simpa using this
  · intro r hr
    have := (List.mem_filter.mp hr).2
    simpa using this
  · intro hmem
    have := (List.mem_filter.mp hmem).2
    simp at this
  · intro hmem
    have := (List.mem_filter.mp hmem).2
    simp at this
  · intro hmem
    have := (List.mem_filter.mp hmem).2
    simp at this
  · rfl

theorem c7_witness :
    ((some "!del" : Option String) = some "!del") ∧
    ((∀ m ∈ (portalDelete { gcid := "dm:d", gc_receiver := "rv", mxid := some "!del" }
        { messages := [{ mxid := "$m1", mx_room := "!del", gcid := "g1",
                         gc_chat := "dm:d", gc_receiver := "rv", gc_parent_id := none,
                         index := 0, timestamp := 1, msgtype := "m.text",
                         gc_sender := "u" },
                       { mxid := "$m2", mx_room := "!other", gcid := "g2",
                         gc_chat := "dm:e", gc_receiver := "rv", gc_parent_id := none,
                         index := 0, timestamp := 2, msgtype := "m.text",
                         gc_sender := "u" }],
          reactions := [{ mxid := "$r1", mx_room := "!del", emoji := "x",
                          gc_sender := "u", gc_msgid := "g1", gc_chat := "dm:d",
                          gc_receiver := "rv", timestamp := 3 }],
          portalRows := [("dm:d", "rv"), ("dm:e", "rv")],
          byGcid := [("dm:d", "rv"), ("dm:e", "rv")],
          byMxid := ["!del", "!other"] }).1.messages, m.mx_room ≠ "!del") ∧
      (∀ r ∈ (portalDelete { gcid := "dm:d", gc_receiver := "rv", mxid := some "!del" }
        { messages := [{ mxid := "$m1", mx_room := "!del", gcid := "g1",
                         gc_chat := "dm:d", gc_receiver := "rv", gc_parent_id := none,
                         index := 0, timestamp := 1, msgtype := "m.text",
                         gc_sender := "u" },
                       { mxid := "$m2", mx_room := "!other", gcid := "g2",
                         gc_chat := "dm:e", gc_receiver := "rv", gc_parent_id := none,
                         index := 0, timestamp := 2, msgtype := "m.text",
                         gc_sender := "u" }],
          reactions := [{ mxid := "$r1", mx_room := "!del", emoji := "x",
                          gc_sender := "u", gc_msgid := "g1", gc_chat := "dm:d",
                          gc_receiver := "rv", timestamp := 3 }],
          portalRows := [("dm:d", "rv"), ("dm:e", "rv")],
          byGcid := [("dm:d", "rv"), ("dm:e", "rv")],
          byMxid := ["!del", "!other"] }).1.reactions, r.mx_room ≠ "!del") ∧
      ("dm:d", "rv") ∉ (portalDelete
        { gcid := "dm:d", gc_receiver := "rv", mxid := some "!del" }
        { messages := [], reactions := [],
          portalRows := [("dm:d", "rv"), ("dm:e", "rv")],
          byGcid := [("dm:d", "rv"), ("dm:e", "rv")],
          byMxid := ["!del", "!other"] }).1.byGcid) :=
  ⟨rfl,
   (c7_portal_delete_cascade { gcid := "dm:d", gc_receiver := "rv", mxid := some "!del" }
     { messages := [{ mxid := "$m1", mx_room := "!del", gcid := "g1",
                      gc_chat := "dm:d", gc_receiver := "rv", gc_parent_id := none,
                      index := 0, timestamp := 1, msgtype := "m.text", gc_sender := "u" },
                    { mxid := "$m2", mx_room := "!other", gcid := "g2",
                      gc_chat := "dm:e", gc_receiver := "rv", gc_parent_id := none,
                      index := 0, timestamp := 2, msgtype := "m.text",
                      gc_sender := "u" }],
       reactions := [{ mxid := "$r1", mx_room := "!del", emoji := "x", gc_sender := "u",
                       gc_msgid := "g1", gc_chat := "dm:d", gc_receiver := "rv",
                       timestamp := 3 }],
       portalRows := [("dm:d", "rv"), ("dm:e", "rv")],
       byGcid := [("dm:d", "rv"), ("dm:e", "rv")],
       byMxid := ["!del", "!other"] } "!del" rfl).1,
   (c7_portal_delete_cascade { gcid := "dm:d", gc_receiver := "rv", mxid := some "!del" }
     { messages := [{ mxid := "$m1", mx_room := "!del", gcid := "g1",
                      gc_chat := "dm:d", gc_receiver := "rv", gc_parent_id := none,
                      index := 0, timestamp := 1, msgtype := "m.text", gc_sender := "u" },
                    { mxid := "$m2", mx_room := "!other", gcid := "g2",
                      gc_chat := "dm:e", gc_receiver := "rv", gc_parent_id := none,
                      index := 0, timestamp := 2, msgtype := "m.text",
                      gc_sender := "u" }],
       reactions := [{ mxid := "$r1", mx_room := "!del", emoji := "x", gc_sender := "u",
                       gc_msgid := "g1", gc_chat := "dm:d", gc_receiver := "rv",
                       timestamp := 3 }],
       portalRows := [("dm:d", "rv"), ("dm:e", "rv")],
       byGcid := [("dm:d", "rv"), ("dm:e", "rv")],
       byMxid := ["!del", "!other"] } "!del" rfl).2.1,
   (c7_portal_delete_cascade { gcid := "dm:d", gc_receiver := "rv", mxid := some "!del" }
     { messages := [], reactions := [],
       portalRows := [("dm:d", "rv"), ("dm:e", "rv")],
       byGcid := [("dm:d", "rv"), ("dm:e", "rv")],
       byMxid := ["!del", "!other"] } "!del" rfl).2.2.1⟩

/-- C8: the registered schema-migration step performs exactly one DDL action —
adding the nullable text column `space_mxid` to the `user` table — and an
error raised while executing it propagates to the caller uncaught (no retry,
no suppression): the step's result is exactly the connection's error. -/
theorem c8_migration_step {E : Type} (execute : SqlAction → Except E Unit) (e : E)
    (herr : execute (SqlAction.addColumn "user" "space_mxid" "TEXT" true) =
      Except.error e) :
    createTableQueries = [SqlAction.addColumn "user" "space_mxid" "TEXT" true] ∧
    upgrade_v6 execute = Except.error e := by
  refine ⟨rfl, ?_⟩
  unfold upgrade_v6 createTableQueries execAll
  rw [herr]

theorem c8_witness :
    ((fun _ : SqlAction => (Except.error "db down" : Except String Unit))
        (SqlAction.addColumn "user" "space_mxid" "TEXT" true) =
      Except.error "db down") ∧
    (createTableQueries = [SqlAction.addColumn "user" "space_mxid" "TEXT" true] ∧
      upgrade_v6 (fun _ : SqlAction => (Except.error "db down" : Except String Unit)) =
        Except.error "db down") :=
  ⟨rfl, c8_migration_step (fun _ => Except.error "db down") "db down" rfl⟩

end GCBridge
